import Mathlib

/-!
# WallpaperGenerator: a shallow embedding of `frontend/src/components/WallpaperGenerator.jsx`

The component keeps four `useState` cells (`prompt`, `generatedImage`, `isGenerating`,
`lastPrompt`) and five event handlers.  Every handler is embedded as the list of commands it
executes, in program order: state setters, toasts, network calls, browser calls.  The state
after a handler is obtained by running its setters over the state (`run`).  An `async` handler
is cut at its `await`: the part before it and the part after it are separate command lists, the
second one indexed by the way the awaited promise settles.

JavaScript strings are sequences of UTF-16 code units, embedded as `List Nat`.
-/

set_option autoImplicit false
set_option maxRecDepth 100000

namespace WallpaperGenerator

/-! ## JavaScript strings -/

/-- A JavaScript string: its UTF-16 code units. -/
abbrev JSString := List Nat

/-- UTF-16 code units of one Unicode scalar value. -/
def utf16Units (c : Char) : List Nat :=
  if c.toNat < 65536 then [c.toNat]
  else [55296 + (c.toNat - 65536) / 1024, 56320 + (c.toNat - 65536) % 1024]

/-- The JavaScript string denoted by a source literal. -/
def js (s : String) : JSString := s.toList.flatMap utf16Units

/-- ECMAScript `WhiteSpace` and `LineTerminator` code points, the ones `trim` strips:
TAB, LF, VT, FF, CR, SP, NBSP, U+1680, U+2000..U+200A, LS, PS, U+202F, U+205F, U+3000, BOM. -/
def isWhiteSpace (c : Nat) : Bool :=
  c = 9 || c = 10 || c = 11 || c = 12 || c = 13 || c = 32 || c = 160 || c = 5760
    || (8192 ≤ c && c ≤ 8202) || c = 8232 || c = 8233 || c = 8239 || c = 8287
    || c = 12288 || c = 65279

/-- `String.prototype.trimStart`. -/
def trimStart (s : JSString) : JSString := s.dropWhile isWhiteSpace

/-- `String.prototype.trimEnd`. -/
def trimEnd (s : JSString) : JSString := (s.reverse.dropWhile isWhiteSpace).reverse

/-- `String.prototype.trim`. -/
def trim (s : JSString) : JSString := trimEnd (trimStart s)

/-- Truthiness of a string value: every string but the empty one. -/
def truthy (s : JSString) : Bool := !s.isEmpty

/-- Truthiness of a value that is a string, or `null`/`undefined` (`none`). -/
def truthyOpt : Option JSString → Bool
  | none => false
  | some s => truthy s

/-- The expression `a || b` for `a` a string or `undefined` and `b` a string. -/
def orElse (a : Option JSString) (b : JSString) : JSString :=
  match a with
  | some s => if truthy s then s else b
  | none => b

/-- A value that the interface types as a string but that the backend may leave out or send
as JSON `null`: `undefined`, `null`, or a string. -/
inductive Value where
  | undefined
  | null
  | str (s : JSString)
deriving DecidableEq

/-- A value interpolated in a template literal (`ToString`): `undefined` and `null` print as
those words, a string as itself. -/
def interpolate : Value → JSString
  | .undefined => js "undefined"
  | .null => js "null"
  | .str s => s

/-! ## `encodeURIComponent` -/

/-- The characters `encodeURIComponent` leaves alone: ASCII letters, digits and `-_.!~*'()`. -/
def isUnreserved (c : Nat) : Bool :=
  (65 ≤ c && c ≤ 90) || (97 ≤ c && c ≤ 122) || (48 ≤ c && c ≤ 57)
    || c = 45 || c = 95 || c = 46 || c = 33 || c = 126 || c = 42 || c = 39 || c = 40 || c = 41

/-- Code units U+D800..U+DBFF. -/
def isLeadSurrogate (c : Nat) : Bool := 55296 ≤ c && c ≤ 56319

/-- Code units U+DC00..U+DFFF. -/
def isTrailSurrogate (c : Nat) : Bool := 56320 ≤ c && c ≤ 57343

/-- One upper-case hexadecimal digit, as a code unit. -/
def hexDigit (n : Nat) : Nat := if n < 10 then 48 + n else 55 + n

/-- The escape `%XX` of one octet. -/
def percentEscape (b : Nat) : JSString := [37, hexDigit (b / 16), hexDigit (b % 16)]

/-- UTF-8 octets of a code point. -/
def utf8Encode (cp : Nat) : List Nat :=
  if cp < 128 then [cp]
  else if cp < 2048 then [192 + cp / 64, 128 + cp % 64]
  else if cp < 65536 then [224 + cp / 4096, 128 + cp / 64 % 64, 128 + cp % 64]
  else [240 + cp / 262144, 128 + cp / 4096 % 64, 128 + cp / 64 % 64, 128 + cp % 64]

/-- The escaped form of a code point: its UTF-8 octets, each as `%XX`. -/
def escapeCodePoint (cp : Nat) : JSString := (utf8Encode cp).flatMap percentEscape

/-- The code point of a surrogate pair. -/
def pairCodePoint (hi lo : Nat) : Nat := (hi - 55296) * 1024 + (lo - 56320) + 65536

/-- The built-in `encodeURIComponent` (ECMAScript `Encode` with the unreserved set above).
`none` stands for the `URIError` it throws on an unpaired surrogate. -/
def encodeURIComponent : JSString → Option JSString
  | [] => some []
  | c :: rest =>
    if isUnreserved c then (encodeURIComponent rest).map (fun r => c :: r)
    else if isTrailSurrogate c then none
    else if isLeadSurrogate c then
      match rest with
      | [] => none
      | d :: rest2 =>
        if isTrailSurrogate d then
          (encodeURIComponent rest2).map (fun r => escapeCodePoint (pairCodePoint c d) ++ r)
        else none
    else (encodeURIComponent rest).map (fun r => escapeCodePoint c ++ r)

/-- `String.prototype.isWellFormed`: no unpaired surrogate. -/
def isWellFormed : JSString → Bool
  | [] => true
  | c :: rest =>
    if isTrailSurrogate c then false
    else if isLeadSurrogate c then
      match rest with
      | [] => false
      | d :: rest2 => isTrailSurrogate d && isWellFormed rest2
    else isWellFormed rest

/-! ## Component state and commands -/

/-- The four `useState` cells of the component.  For `generatedImage`, `none` is `null` or
`undefined`: the code only tests its truthiness before any use, and the two are alike there.
`lastPrompt` is interpolated as it is, so its `null` and `undefined` are kept apart. -/
structure State where
  prompt : JSString
  generatedImage : Option JSString
  isGenerating : Bool
  lastPrompt : Value
deriving DecidableEq

/-- The state of a freshly mounted component: `useState('')`, `useState(null)`,
`useState(false)`, `useState('')`. -/
def initialState : State :=
  { prompt := [], generatedImage := none, isGenerating := false, lastPrompt := Value.str [] }

/-- The JSON body of the generation request. -/
structure RequestBody where
  prompt : JSString
  aspect_ratio : JSString
deriving DecidableEq

/-- What a handler can do, one constructor per kind of call in the source. -/
inductive Cmd where
  | setPrompt (v : JSString)
  | setGeneratedImage (v : Option JSString)
  | setIsGenerating (v : Bool)
  | setLastPrompt (v : Value)
  | axiosPost (url : JSString) (body : RequestBody)
  | fetch (url : JSString)
  | toastError (msg : JSString)
  | toastSuccess (msg : JSString)
  | consoleError (label : JSString)
  | windowOpen (url target features : JSString)
  | clipboardWriteText (text : JSString)
  | anchorDownload (filename : JSString)
  | throwURIError
deriving DecidableEq

/-- Effect of one command on the state cells: only the four setters write. -/
def State.exec (s : State) : Cmd → State
  | .setPrompt v => { s with prompt := v }
  | .setGeneratedImage v => { s with generatedImage := v }
  | .setIsGenerating v => { s with isGenerating := v }
  | .setLastPrompt v => { s with lastPrompt := v }
  | _ => s

/-- The state after a list of commands. -/
def run (s : State) (cs : List Cmd) : State := cs.foldl State.exec s

/-- Whether a command is a generation request. -/
def Cmd.isPost : Cmd → Bool
  | .axiosPost _ _ => true
  | _ => false

/-- Whether a command touches the network at all. -/
def Cmd.isNetwork : Cmd → Bool
  | .axiosPost _ _ => true
  | .fetch _ => true
  | _ => false

/-- Whether a command is a toast. -/
def Cmd.isNotice : Cmd → Bool
  | .toastError _ => true
  | .toastSuccess _ => true
  | _ => false

/-- Whether a command opens a window. -/
def Cmd.isOpen : Cmd → Bool
  | .windowOpen _ _ _ => true
  | _ => false

/-! ## Configuration -/

/-- Line 11: `process.env.REACT_APP_API_URL || 'http://localhost:8000'`; the argument is the
environment variable, `none` when unset. -/
def API_BASE (env : Option JSString) : JSString := orElse env (js "http://localhost:8000")

/-- Line 12: the template `API_BASE` followed by `/api`. -/
def API (env : Option JSString) : JSString := API_BASE env ++ js "/api"

/-! ## `generateWallpaper` -/

/-- The body of a response to the generation request, as the handler reads it: `success`,
`image_url`, `prompt`, `error`.  For `image_url` and `error`, which are only used after a
truthiness test, `none` is an absent or `null` field; `prompt` is stored and interpolated as
it comes. -/
structure ResponseData where
  success : Bool
  image_url : Option JSString
  prompt : Value
  error : Option JSString
deriving DecidableEq

/-- How the awaited `axios.post` settles: it resolves with a body, or control reaches the
`catch` (network error, status outside 2xx, timeout, or a body that cannot be read). -/
inductive Outcome where
  | resolved (data : ResponseData)
  | rejected
deriving DecidableEq

/-- Lines 21-31, up to the `await`: the validation guard, then the flag and the request. -/
def generateWallpaper_begin (env : Option JSString) (s : State) : List Cmd :=
  if !truthy (trim s.prompt) then
    [Cmd.toastError (js "Please enter a description for your wallpaper")]
  else
    [Cmd.setIsGenerating true,
     Cmd.axiosPost (API env ++ js "/generate-wallpaper")
       { prompt := trim s.prompt, aspect_ratio := js "16:9" }]

/-- Lines 33-45, after the `await`: the `try` body, the `catch`, and the `finally`. -/
def generateWallpaper_settle : Outcome → List Cmd
  | .resolved d =>
    (if d.success then
      [Cmd.setGeneratedImage d.image_url,
       Cmd.setLastPrompt d.prompt,
       Cmd.toastSuccess (js "Wallpaper generated successfully!")]
    else
      [Cmd.toastError (orElse d.error (js "Failed to generate wallpaper"))])
    ++ [Cmd.setIsGenerating false]
  | .rejected =>
    [Cmd.consoleError (js "Error generating wallpaper:"),
     Cmd.toastError (js "Failed to generate wallpaper. Please try again."),
     Cmd.setIsGenerating false]

/-- One whole call of `generateWallpaper`, the awaited request settling as `o`.  The early
`return` of line 23 ends the call before any `await`. -/
def generateWallpaper (env : Option JSString) (s : State) (o : Outcome) : List Cmd :=
  if !truthy (trim s.prompt) then generateWallpaper_begin env s
  else generateWallpaper_begin env s ++ generateWallpaper_settle o

/-! ## Result actions -/

/-- Lines 49-52 of `downloadImage`, up to the first `await`. -/
def downloadImage_begin (s : State) : List Cmd :=
  match s.generatedImage with
  | none => []
  | some u => if !truthy u then [] else [Cmd.fetch u]

/-- Lines 53-67 of `downloadImage`: `ok` tells whether `fetch` and `blob()` both resolved,
`now` is `Date.now()`.  The object URL, the hidden anchor, its click and the clean-up of
lines 54-62 are the one command `anchorDownload`. -/
def downloadImage_settle (ok : Bool) (now : Nat) : List Cmd :=
  if ok then
    [Cmd.anchorDownload (js "wallpaper-" ++ js (toString now) ++ js ".jpg"),
     Cmd.toastSuccess (js "Wallpaper downloaded!")]
  else
    [Cmd.consoleError (js "Error downloading image:"),
     Cmd.toastError (js "Failed to download wallpaper")]

/-- One whole call of `downloadImage`. -/
def downloadImage (s : State) (ok : Bool) (now : Nat) : List Cmd :=
  if !truthyOpt s.generatedImage then downloadImage_begin s
  else downloadImage_begin s ++ downloadImage_settle ok now

/-- Line 73: the share text built around `lastPrompt`. -/
def shareText (lastPrompt : Value) : JSString :=
  js "Check out this amazing wallpaper I just generated: \"" ++ interpolate lastPrompt ++ js "\""

/-- Lines 77-90: the `switch`; `none` is the `default: return`. -/
def shareLink (platform text shareUrl : JSString) : Option JSString :=
  if platform = js "twitter" then
    some (js "https://twitter.com/intent/tweet?text=" ++ text ++ js "&url=" ++ shareUrl)
  else if platform = js "facebook" then
    some (js "https://www.facebook.com/sharer/sharer.php?u=" ++ shareUrl ++ js "&quote=" ++ text)
  else if platform = js "pinterest" then
    some (js "https://pinterest.com/pin/create/button/?url=" ++ shareUrl
      ++ js "&description=" ++ text)
  else none

/-- Lines 70-94, `shareToSocial(platform)`. -/
def shareToSocial (s : State) (platform : JSString) : List Cmd :=
  match s.generatedImage with
  | none => []
  | some img =>
    if !truthy img then []
    else
      match encodeURIComponent img with
      | none => [Cmd.throwURIError]
      | some shareUrl =>
        match encodeURIComponent (shareText s.lastPrompt) with
        | none => [Cmd.throwURIError]
        | some text =>
          match shareLink platform text shareUrl with
          | none => []
          | some url =>
            [Cmd.windowOpen url (js "_blank") (js "noopener,noreferrer"),
             Cmd.toastSuccess (js "Sharing to " ++ platform ++ js "!")]

/-- Lines 96-101, `copyImageUrl`. -/
def copyImageUrl (s : State) : List Cmd :=
  match s.generatedImage with
  | none => []
  | some u =>
    if truthy u then
      [Cmd.clipboardWriteText u, Cmd.toastSuccess (js "Image URL copied to clipboard!")]
    else []

/-- Lines 103-109. -/
def samplePrompts : List JSString :=
  [js "Serene mountain landscape at sunset with purple sky",
   js "Modern minimalist geometric abstract art",
   js "Peaceful forest path with morning sunlight filtering through trees",
   js "Vibrant galaxy and stars in deep space",
   js "Ocean waves crashing on a rocky shore at golden hour"]

/-- Line 158, the `onClick` of a sample badge. -/
def selectSample (sample : JSString) : List Cmd := [Cmd.setPrompt sample]

/-- Line 141, the `onChange` of the text area. -/
def onChange (value : JSString) : List Cmd := [Cmd.setPrompt value]

/-! ## The rendered interface -/

/-- The three alternatives of the preview box, lines 197-213. -/
inductive Preview where
  | spinner
  | image (src : JSString)
  | placeholder
deriving DecidableEq

/-- The buttons of the result panel, lines 223-257. -/
inductive Action where
  | download
  | copyUrl
  | share (platform : JSString)
deriving DecidableEq

/-- The result panel, lines 216-260: the prompt line and the action buttons. -/
structure ResultPanel where
  promptText : Value
  actions : List Action
deriving DecidableEq

/-- What the component renders, as far as it depends on the state. -/
structure View where
  textareaValue : JSString
  textareaDisabled : Bool
  samples : List JSString
  generateDisabled : Bool
  generateLabel : JSString
  preview : Preview
  result : Option ResultPanel
deriving DecidableEq

/-- The five buttons of the result panel, in the order of lines 223-257. -/
def panelActions : List Action :=
  [Action.download, Action.copyUrl, Action.share (js "twitter"),
   Action.share (js "facebook"), Action.share (js "pinterest")]

/-- The `return (...)` of the component, lines 111-270. -/
def render (s : State) : View :=
  { textareaValue := s.prompt
    textareaDisabled := s.isGenerating
    samples := samplePrompts
    generateDisabled := s.isGenerating || !truthy (trim s.prompt)
    generateLabel := if s.isGenerating then js "Generating..." else js "Generate Wallpaper"
    preview :=
      if s.isGenerating then Preview.spinner
      else
        match s.generatedImage with
        | none => Preview.placeholder
        | some u => if truthy u then Preview.image u else Preview.placeholder
    result :=
      if truthyOpt s.generatedImage && !s.isGenerating then
        some
          { promptText := s.lastPrompt
            actions := panelActions }
      else none }

/-- The handler behind each button of the result panel, up to its first `await`. -/
def onAction (s : State) : Action → List Cmd
  | .download => downloadImage_begin s
  | .copyUrl => copyImageUrl s
  | .share platform => shareToSocial s platform

/-! ## The component as a transition system -/

/-- The component together with the number of generation requests awaiting an answer. -/
structure System where
  ui : State
  inFlight : Nat
deriving DecidableEq

/-- What can happen to a mounted component. -/
inductive Event where
  | typing (value : JSString)
  | sample (index : Nat)
  | generate
  | settle (o : Outcome)
  | action (a : Action)
deriving DecidableEq

/-- Whether the rendered interface lets the event happen: a disabled control fires nothing, a
button that is not rendered cannot be clicked, only a pending request can settle. -/
def permitted (c : System) : Event → Bool
  | .typing _ => !(render c.ui).textareaDisabled
  | .sample index => decide (index < (render c.ui).samples.length)
  | .generate => !(render c.ui).generateDisabled
  | .settle _ => decide (0 < c.inFlight)
  | .action a =>
    match (render c.ui).result with
    | none => false
    | some panel => decide (a ∈ panel.actions)

/-- The commands an event makes the component execute. -/
def commands (env : Option JSString) (c : System) : Event → List Cmd
  | .typing value => onChange value
  | .sample index => selectSample ((render c.ui).samples.getD index [])
  | .generate => generateWallpaper_begin env c.ui
  | .settle o => generateWallpaper_settle o
  | .action a => onAction c.ui a

/-- One transition: the state cells follow the setters, a settled request is counted out of
flight, and every request the event issues is counted in. -/
def step (env : Option JSString) (c : System) (e : Event) : System :=
  { ui := run c.ui (commands env c e)
    inFlight :=
      (match e with
        | .settle _ => c.inFlight - 1
        | _ => c.inFlight)
      + (commands env c e).countP Cmd.isPost }

/-- The freshly mounted component. -/
def initialSystem : System := { ui := initialState, inFlight := 0 }

/-- The states the component can be in: the initial one, closed under permitted events. -/
inductive Reachable (env : Option JSString) : System → Prop where
  | init : Reachable env initialSystem
  | next (c : System) (e : Event) :
      Reachable env c → permitted c e = true → Reachable env (step env c e)

/-! ## The invariant and the concrete states used below -/

/-- The invariant of the transition system: either nothing is in flight and the flag is down,
or exactly one request is in flight, the flag is up and the prompt passes the guard. -/
def Inv (c : System) : Prop :=
  (c.inFlight = 0 ∧ c.ui.isGenerating = false)
    ∨ (c.inFlight = 1 ∧ c.ui.isGenerating = true ∧ trim c.ui.prompt ≠ [])

/-- A success body with the image URL `u` and the echoed prompt `p`. -/
def successBody (u p : JSString) : ResponseData :=
  { success := true, image_url := some u, prompt := Value.str p, error := none }

/-- A failure body with the given `error` field. -/
def failureBody (e : Option JSString) : ResponseData :=
  { success := false, image_url := none, prompt := Value.undefined, error := e }

/-- A state whose prompt is a blank, a tab and a line feed, with an image on display. -/
def blankState : State :=
  { prompt := [32, 9, 10], generatedImage := some (js "https://cdn.example/x.jpg"),
    isGenerating := false, lastPrompt := Value.str (js "sky") }

/-- A state in which the fourth sample has been typed and nothing was generated yet. -/
def typedState : State :=
  { prompt := js "Vibrant galaxy and stars in deep space", generatedImage := none,
    isGenerating := false, lastPrompt := Value.str [] }

/-- A state with an image on display and a new prompt typed in. -/
def shownState : State :=
  { prompt := js "  sky ", generatedImage := some (js "https://cdn.example/x.jpg"),
    isGenerating := false, lastPrompt := Value.str (js "Vibrant galaxy and stars in deep space") }

/-- A state with an image on display whose echoed prompt is `sky`. -/
def displayedState : State :=
  { prompt := [], generatedImage := some (js "https://cdn.example/x.jpg"),
    isGenerating := false, lastPrompt := Value.str (js "sky") }

/-- The state after the fourth sample was generated and the backend answered with the image
`https://cdn.example/x.jpg` and, as the echoed prompt, the one code unit U+D800. -/
def surrogateState : State :=
  { prompt := js "Vibrant galaxy and stars in deep space",
    generatedImage := some (js "https://cdn.example/x.jpg"),
    isGenerating := false, lastPrompt := Value.str [55296] }

/-- The state after the fourth sample was generated and the backend answered with the image
`https://cdn.example/x.jpg` and `null` as the echoed prompt. -/
def nullPromptState : State :=
  { prompt := js "Vibrant galaxy and stars in deep space",
    generatedImage := some (js "https://cdn.example/x.jpg"),
    isGenerating := false, lastPrompt := Value.null }

/-- The system right after the fourth sample was selected and Generate was clicked. -/
def generatingSystem : System :=
  step none (step none initialSystem (Event.sample 3)) Event.generate

/-! ## Basic facts about strings -/

theorem truthy_iff (s : JSString) : truthy s = true ↔ s ≠ [] := by
  cases s <;> simp [truthy]

theorem trimStart_eq_nil (s : JSString) (h : ∀ c ∈ s, isWhiteSpace c = true) :
    trimStart s = [] := by
  unfold trimStart
  rw [List.dropWhile_eq_nil_iff]
  exact h

theorem trim_eq_nil_of_blank (s : JSString) (h : ∀ c ∈ s, isWhiteSpace c = true) :
    trim s = [] := by
  simp [trim, trimEnd, trimStart_eq_nil s h]

theorem blank_of_trim_eq_nil (s : JSString) (h : trim s = []) :
    ∀ c ∈ s, isWhiteSpace c = true := by
  intro c hc
  simp only [trim, trimEnd, List.reverse_eq_nil_iff, List.dropWhile_eq_nil_iff,
    List.mem_reverse] at h
  by_cases hw : isWhiteSpace c = true
  · exact hw
  · exfalso
    have hsplit := List.takeWhile_append_dropWhile isWhiteSpace s
    rw [← hsplit] at hc
    rcases List.mem_append.1 hc with h1 | h1
    · exact hw (List.mem_takeWhile_imp h1)
    · exact hw (h c h1)

/-- A prompt trims to the empty string exactly when all its code units are white space. -/
theorem trim_eq_nil_iff (s : JSString) :
    trim s = [] ↔ ∀ c ∈ s, isWhiteSpace c = true :=
  ⟨blank_of_trim_eq_nil s, trim_eq_nil_of_blank s⟩

theorem isWellFormed_append (a b : JSString) (ha : isWellFormed a = true)
    (hb : isWellFormed b = true) : isWellFormed (a ++ b) = true := by
  induction a using isWellFormed.induct with
  | case1 => simpa using hb
  | case2 c rest hc => cases rest <;> simp [isWellFormed, hc] at ha
  | case3 c hc hl => simp [isWellFormed, hc, hl] at ha
  | case4 c hc hl d rest2 ih =>
    simp [isWellFormed, hc, hl] at ha
    simp [isWellFormed, hc, hl, ha.1, ih ha.2]
  | case5 c rest hc hl ih =>
    cases rest with
    | nil =>
      cases b with
      | nil => simpa using ha
      | cons e b2 => simpa [isWellFormed, hc, hl] using hb
    | cons e rest2 =>
      simp [isWellFormed, hc, hl] at ha
      have := ih ha
      simpa [isWellFormed, hc, hl] using this

theorem not_surrogate_of_unreserved (c : Nat) (h : isUnreserved c = true) :
    isTrailSurrogate c = false ∧ isLeadSurrogate c = false := by
  have hlt : c < 127 := by
    simp only [isUnreserved, Bool.or_eq_true, Bool.and_eq_true, decide_eq_true_eq] at h
    omega
  constructor
  · simp [isTrailSurrogate]; omega
  · simp [isLeadSurrogate]; omega

/-- The built-in `encodeURIComponent` returns exactly on the strings without an unpaired
surrogate, and throws on the others. -/
theorem encodeURIComponent_isSome (s : JSString) :
    (encodeURIComponent s).isSome = isWellFormed s := by
  induction s using encodeURIComponent.induct with
  | case1 => rfl
  | case2 c rest hc ih =>
    have h := not_surrogate_of_unreserved c hc
    cases rest <;> simp_all [encodeURIComponent, isWellFormed]
  | case3 c rest hc ht => cases rest <;> simp [encodeURIComponent, isWellFormed, hc, ht]
  | case4 c hc ht hl => simp [encodeURIComponent, isWellFormed, hc, ht, hl]
  | case5 c hc ht hl d rest2 hd ih =>
    simp [encodeURIComponent, isWellFormed, hc, ht, hl, hd, ih]
  | case6 c hc ht hl d rest2 hd =>
    simp [encodeURIComponent, isWellFormed, hc, ht, hl, hd]
  | case7 c rest hc ht hl ih =>
    cases rest <;> simp_all [encodeURIComponent, isWellFormed]

theorem encodeURIComponent_of_wellFormed (s : JSString) (h : isWellFormed s = true) :
    ∃ r, encodeURIComponent s = some r := by
  have hs := encodeURIComponent_isSome s
  rw [h] at hs
  exact Option.isSome_iff_exists.1 hs

theorem shareText_wellFormed (lastPrompt : Value)
    (h : isWellFormed (interpolate lastPrompt) = true) :
    isWellFormed (shareText lastPrompt) = true := by
  unfold shareText
  exact isWellFormed_append _ _ (isWellFormed_append _ _ (by decide) h) (by decide)

/-! ## Basic facts about the handlers -/

theorem truthy_trim_of_ne_nil (p : JSString) (h : trim p ≠ []) : truthy (trim p) = true :=
  (truthy_iff _).2 h

/-- With a prompt that does not trim to the empty string the call passes the guard. -/
theorem generateWallpaper_begin_of_nonblank (env : Option JSString) (s : State)
    (h : trim s.prompt ≠ []) :
    generateWallpaper_begin env s =
      [Cmd.setIsGenerating true,
       Cmd.axiosPost (API env ++ js "/generate-wallpaper")
         { prompt := trim s.prompt, aspect_ratio := js "16:9" }] := by
  simp [generateWallpaper_begin, truthy_trim_of_ne_nil _ h]

theorem generateWallpaper_of_nonblank (env : Option JSString) (s : State) (o : Outcome)
    (h : trim s.prompt ≠ []) :
    generateWallpaper env s o =
      [Cmd.setIsGenerating true,
       Cmd.axiosPost (API env ++ js "/generate-wallpaper")
         { prompt := trim s.prompt, aspect_ratio := js "16:9" }]
      ++ generateWallpaper_settle o := by
  simp [generateWallpaper, generateWallpaper_begin, truthy_trim_of_ne_nil _ h]

theorem api_path : js "/api" ++ js "/generate-wallpaper" = js "/api/generate-wallpaper" := by
  decide

/-! ## The in-flight invariant -/

/-- Every sample prompt passes the validation guard. -/
theorem samples_nonblank :
    ∀ index, index < samplePrompts.length → trim (samplePrompts.getD index []) ≠ [] := by
  decide

/-- Nothing after the `await` touches the network: there is no retry. -/
theorem settle_no_network (o : Outcome) :
    (generateWallpaper_settle o).filter Cmd.isNetwork = []
      ∧ (generateWallpaper_settle o).countP Cmd.isPost = 0 := by
  cases o with
  | resolved d =>
    cases hd : d.success <;> simp [generateWallpaper_settle, hd, Cmd.isNetwork, Cmd.isPost]
  | rejected => simp [generateWallpaper_settle, Cmd.isNetwork, Cmd.isPost]

theorem run_settle (s : State) (o : Outcome) :
    (run s (generateWallpaper_settle o)).isGenerating = false
      ∧ (run s (generateWallpaper_settle o)).prompt = s.prompt := by
  cases o with
  | resolved d =>
    cases hd : d.success <;> simp [generateWallpaper_settle, hd, run, State.exec]
  | rejected => simp [generateWallpaper_settle, run, State.exec]

/-- The result actions write no state cell and issue no generation request. -/
theorem onAction_pure (s : State) (a : Action) :
    run s (onAction s a) = s ∧ (onAction s a).countP Cmd.isPost = 0 := by
  cases a with
  | download =>
    simp only [onAction, downloadImage_begin]
    cases s.generatedImage with
    | none => simp [run]
    | some u => cases hu : truthy u <;> simp [run, State.exec, Cmd.isPost, hu]
  | copyUrl =>
    simp only [onAction, copyImageUrl]
    cases s.generatedImage with
    | none => simp [run]
    | some u => cases hu : truthy u <;> simp [run, State.exec, Cmd.isPost, hu]
  | share platform =>
    simp only [onAction, shareToSocial]
    cases s.generatedImage with
    | none => simp [run]
    | some u =>
      cases hu : truthy u
      · simp [run, hu]
      · cases h1 : encodeURIComponent u with
        | none => simp [run, State.exec, Cmd.isPost, hu, h1]
        | some shareUrl =>
          cases h2 : encodeURIComponent (shareText s.lastPrompt) with
          | none => simp [run, State.exec, Cmd.isPost, hu, h1, h2]
          | some text =>
            cases h3 : shareLink platform text shareUrl <;>
              simp [run, State.exec, Cmd.isPost, hu, h1, h2, h3]

theorem inv_step (env : Option JSString) (c : System) (e : Event) (h : Inv c)
    (hp : permitted c e = true) : Inv (step env c e) := by
  cases e with
  | typing value =>
    simp only [permitted, render, Bool.not_eq_true_eq_eq_false] at hp
    rcases h with ⟨h0, _⟩ | ⟨_, h1, _⟩
    · left
      simp [step, commands, onChange, run, State.exec, Cmd.isPost, h0, hp]
    · rw [h1] at hp; cases hp
  | sample index =>
    simp only [permitted, render, decide_eq_true_eq] at hp
    have hs : trim (samplePrompts[index]?.getD []) ≠ [] := by
      simpa using samples_nonblank index hp
    rcases h with ⟨h0, h1⟩ | ⟨h0, h1, _⟩
    · left
      simp [step, commands, selectSample, run, State.exec, Cmd.isPost, h0, h1]
    · right
      simp [step, commands, selectSample, run, State.exec, Cmd.isPost, h0, h1, render, hs]
  | generate =>
    simp only [permitted, render, Bool.not_eq_true_eq_eq_false, Bool.or_eq_false_iff,
      Bool.not_eq_false_eq_eq_true] at hp
    have hne : trim c.ui.prompt ≠ [] := (truthy_iff _).1 hp.2
    rcases h with ⟨h0, _⟩ | ⟨_, h1, _⟩
    · right
      simp [step, commands, generateWallpaper_begin_of_nonblank env c.ui hne, run, State.exec,
        Cmd.isPost, h0, hne]
    · rw [h1] at hp; cases hp.1
  | settle o =>
    simp only [permitted, decide_eq_true_eq] at hp
    rcases h with ⟨h0, _⟩ | ⟨h0, _, _⟩
    · omega
    · left
      simp [step, commands, h0, (run_settle c.ui o).1, (settle_no_network o).2]
  | action a =>
    have hpure := onAction_pure c.ui a
    have hstep : step env c (Event.action a) = c := by
      simp [step, commands, hpure.1, hpure.2]
    rw [hstep]
    exact h

theorem inv_of_reachable (env : Option JSString) (c : System) (h : Reachable env c) :
    Inv c := by
  induction h with
  | init => left; exact ⟨rfl, rfl⟩
  | next c e _ hp ih => exact inv_step env c e ih hp

/-! ## The claims -/

/-- C1: when every code unit of the prompt is white space (so that `prompt.trim()` is the empty
string, the empty prompt included), a call of `generateWallpaper` executes exactly one command,
the error toast `Please enter a description for your wallpaper`: no network request is issued
and the four state cells are what they were. -/
theorem generateWallpaper_blank (env : Option JSString) (s : State) (o : Outcome)
    (h : ∀ c ∈ s.prompt, isWhiteSpace c = true) :
    trim s.prompt = []
      ∧ generateWallpaper env s o
          = [Cmd.toastError (js "Please enter a description for your wallpaper")]
      ∧ (generateWallpaper env s o).countP Cmd.isNetwork = 0
      ∧ (generateWallpaper env s o).countP Cmd.isNotice = 1
      ∧ run s (generateWallpaper env s o) = s := by
  have ht : trim s.prompt = [] := trim_eq_nil_of_blank _ h
  have hg : generateWallpaper env s o
      = [Cmd.toastError (js "Please enter a description for your wallpaper")] := by
    simp [generateWallpaper, generateWallpaper_begin, ht, truthy]
  refine ⟨ht, hg, ?_, ?_, ?_⟩
  · rw [hg]; rfl
  · rw [hg]; rfl
  · rw [hg]; rfl

theorem generateWallpaper_blank_witness :
    (∀ c ∈ blankState.prompt, isWhiteSpace c = true)
      ∧ (trim blankState.prompt = []
        ∧ generateWallpaper none blankState Outcome.rejected
            = [Cmd.toastError (js "Please enter a description for your wallpaper")]
        ∧ (generateWallpaper none blankState Outcome.rejected).countP Cmd.isNetwork = 0
        ∧ (generateWallpaper none blankState Outcome.rejected).countP Cmd.isNotice = 1
        ∧ run blankState (generateWallpaper none blankState Outcome.rejected) = blankState) :=
  ⟨by decide, generateWallpaper_blank none blankState Outcome.rejected (by decide)⟩

/-- C2, as stated, fails: a success response whose image URL is the empty string is stored,
but the empty string is falsy, so the preview shows the placeholder instead of an image and
the result panel with the download, copy and share buttons is not rendered. -/
theorem generateWallpaper_success_empty_url :
    (run typedState (generateWallpaper none typedState
        (Outcome.resolved (successBody [] (js "sky"))))).generatedImage = some []
      ∧ (render (run typedState (generateWallpaper none typedState
          (Outcome.resolved (successBody [] (js "sky")))))).preview = Preview.placeholder
      ∧ (render (run typedState (generateWallpaper none typedState
          (Outcome.resolved (successBody [] (js "sky")))))).preview ≠ Preview.image []
      ∧ (render (run typedState (generateWallpaper none typedState
          (Outcome.resolved (successBody [] (js "sky")))))).result = none := by
  decide

/-- C2, amended: for a prompt that does not trim to the empty string and a response with
`success` true, image URL `u` and echoed prompt `p`, after the call the stored image is `u`,
`lastPrompt` is `p` (whatever the typed prompt) and `isGenerating` is false; when `u` is not
the empty string the preview is the image with source `u`, the result panel shows `p` and the
five action buttons, and download and copy act on `u`. -/
theorem generateWallpaper_success (env : Option JSString) (s : State) (d : ResponseData)
    (u p : JSString) (hp : trim s.prompt ≠ []) (hs : d.success = true)
    (hu : d.image_url = some u) (hq : d.prompt = Value.str p) :
    (run s (generateWallpaper env s (Outcome.resolved d))).generatedImage = some u
      ∧ (run s (generateWallpaper env s (Outcome.resolved d))).lastPrompt = Value.str p
      ∧ (run s (generateWallpaper env s (Outcome.resolved d))).isGenerating = false
      ∧ (u ≠ [] →
          (render (run s (generateWallpaper env s (Outcome.resolved d)))).preview
              = Preview.image u
            ∧ (render (run s (generateWallpaper env s (Outcome.resolved d)))).result
              = some { promptText := Value.str p, actions := panelActions }
            ∧ downloadImage_begin (run s (generateWallpaper env s (Outcome.resolved d)))
              = [Cmd.fetch u]
            ∧ copyImageUrl (run s (generateWallpaper env s (Outcome.resolved d)))
              = [Cmd.clipboardWriteText u,
                 Cmd.toastSuccess (js "Image URL copied to clipboard!")]) := by
  have hrun : run s (generateWallpaper env s (Outcome.resolved d))
      = { s with generatedImage := some u, lastPrompt := Value.str p, isGenerating := false } := by
    rw [generateWallpaper_of_nonblank env s _ hp]
    simp [generateWallpaper_settle, hs, hu, hq, run, State.exec]
  rw [hrun]
  refine ⟨rfl, rfl, rfl, ?_⟩
  intro hne
  have ht : truthy u = true := (truthy_iff u).2 hne
  simp [render, downloadImage_begin, copyImageUrl, truthyOpt, ht, panelActions]

theorem generateWallpaper_success_witness :
    trim typedState.prompt ≠ []
      ∧ js "https://cdn.example/x.jpg" ≠ []
      ∧ (run typedState (generateWallpaper none typedState (Outcome.resolved
          (successBody (js "https://cdn.example/x.jpg") typedState.prompt)))).generatedImage
        = some (js "https://cdn.example/x.jpg")
      ∧ (render (run typedState (generateWallpaper none typedState (Outcome.resolved
          (successBody (js "https://cdn.example/x.jpg") typedState.prompt))))).preview
        = Preview.image (js "https://cdn.example/x.jpg")
      ∧ (render (run typedState (generateWallpaper none typedState (Outcome.resolved
          (successBody (js "https://cdn.example/x.jpg") typedState.prompt))))).result
        = some { promptText := Value.str (js "Vibrant galaxy and stars in deep space"),
                 actions := panelActions } :=
  have h := generateWallpaper_success none typedState
    (successBody (js "https://cdn.example/x.jpg") typedState.prompt)
    (js "https://cdn.example/x.jpg") typedState.prompt (by decide) rfl rfl rfl
  ⟨by decide, by decide, h.1, (h.2.2.2 (by decide)).1, (h.2.2.2 (by decide)).2.1⟩

/-- C3, as stated, fails: a failure response that carries the empty string as its `error`
does have an error string, yet the notice shows the generic fallback, not that string. -/
theorem generateWallpaper_failure_empty_error :
    (failureBody (some [])).error = some []
      ∧ (generateWallpaper none typedState
          (Outcome.resolved (failureBody (some [])))).filter Cmd.isNotice
        = [Cmd.toastError (js "Failed to generate wallpaper")]
      ∧ (generateWallpaper none typedState
          (Outcome.resolved (failureBody (some [])))).filter Cmd.isNotice
        ≠ [Cmd.toastError []] := by
  decide

/-- C3, amended: for a prompt that does not trim to the empty string and a response with
`success` false, the call leaves `generatedImage` and `lastPrompt` as they were and emits
exactly one notice, an error: its text is the response's error string when one is present and
not empty, and `Failed to generate wallpaper` when it is absent or the empty string. -/
theorem generateWallpaper_failure (env : Option JSString) (s : State) (d : ResponseData)
    (hp : trim s.prompt ≠ []) (hs : d.success = false) :
    (run s (generateWallpaper env s (Outcome.resolved d))).generatedImage = s.generatedImage
      ∧ (run s (generateWallpaper env s (Outcome.resolved d))).lastPrompt = s.lastPrompt
      ∧ (∀ e, d.error = some e → e ≠ [] →
          (generateWallpaper env s (Outcome.resolved d)).filter Cmd.isNotice
            = [Cmd.toastError e])
      ∧ (d.error = none ∨ d.error = some [] →
          (generateWallpaper env s (Outcome.resolved d)).filter Cmd.isNotice
            = [Cmd.toastError (js "Failed to generate wallpaper")]) := by
  rw [generateWallpaper_of_nonblank env s _ hp]
  refine ⟨?_, ?_, ?_, ?_⟩
  · simp [generateWallpaper_settle, hs, run, State.exec]
  · simp [generateWallpaper_settle, hs, run, State.exec]
  · intro e he hne
    have ht : truthy e = true := (truthy_iff e).2 hne
    simp [generateWallpaper_settle, hs, he, orElse, ht, Cmd.isNotice]
  · rintro (he | he)
    · simp [generateWallpaper_settle, hs, he, orElse, Cmd.isNotice]
    · simp [generateWallpaper_settle, hs, he, orElse, truthy, Cmd.isNotice]

theorem generateWallpaper_failure_witness :
    trim shownState.prompt ≠ []
      ∧ (failureBody (some (js "quota exceeded"))).success = false
      ∧ (run shownState (generateWallpaper none shownState
          (Outcome.resolved (failureBody (some (js "quota exceeded")))))).generatedImage
        = some (js "https://cdn.example/x.jpg")
      ∧ (run shownState (generateWallpaper none shownState
          (Outcome.resolved (failureBody (some (js "quota exceeded")))))).lastPrompt
        = Value.str (js "Vibrant galaxy and stars in deep space")
      ∧ (generateWallpaper none shownState
          (Outcome.resolved (failureBody (some (js "quota exceeded"))))).filter Cmd.isNotice
        = [Cmd.toastError (js "quota exceeded")]
      ∧ (generateWallpaper none shownState
          (Outcome.resolved (failureBody none))).filter Cmd.isNotice
        = [Cmd.toastError (js "Failed to generate wallpaper")] :=
  have h := generateWallpaper_failure none shownState
    (failureBody (some (js "quota exceeded"))) (by decide) rfl
  ⟨by decide, rfl, h.1, h.2.1, h.2.2.1 _ rfl (by decide),
   (generateWallpaper_failure none shownState (failureBody none) (by decide) rfl).2.2.2
     (Or.inl rfl)⟩

/-- C4, as stated, fails: with the prompt `"  sky "` held by the component the one request
carries `"sky"` in its `prompt` field, which is not the prompt held. -/
theorem generateWallpaper_request_trims :
    (generateWallpaper none shownState Outcome.rejected).filter Cmd.isNetwork
        = [Cmd.axiosPost (js "http://localhost:8000/api/generate-wallpaper")
            { prompt := js "sky", aspect_ratio := js "16:9" }]
      ∧ js "sky" ≠ shownState.prompt := by
  decide

/-- C4, amended: for a prompt that does not trim to the empty string, a call of
`generateWallpaper` touches the network exactly once, with a POST to
`API_BASE` followed by `/api/generate-wallpaper` whose body has `prompt` equal to the trimmed
prompt and `aspect_ratio` equal to `16:9`; nothing after the `await` issues a request,
however the request settles. -/
theorem generateWallpaper_single_request (env : Option JSString) (s : State) (o : Outcome)
    (hp : trim s.prompt ≠ []) :
    (generateWallpaper env s o).filter Cmd.isNetwork
        = [Cmd.axiosPost (API_BASE env ++ js "/api/generate-wallpaper")
            { prompt := trim s.prompt, aspect_ratio := js "16:9" }]
      ∧ (generateWallpaper env s o).countP Cmd.isPost = 1
      ∧ (generateWallpaper_settle o).countP Cmd.isNetwork = 0 := by
  have hsettle := (settle_no_network o).1
  have hpost := (settle_no_network o).2
  rw [generateWallpaper_of_nonblank env s o hp]
  refine ⟨?_, ?_, ?_⟩
  · rw [List.filter_append, hsettle]
    simp [Cmd.isNetwork, API, List.append_assoc, api_path]
  · rw [List.countP_append, hpost]
    simp [Cmd.isPost]
  · rw [List.countP_eq_length_filter, hsettle]
    rfl

theorem generateWallpaper_single_request_witness :
    trim typedState.prompt ≠ []
      ∧ (generateWallpaper none typedState
          (Outcome.resolved (successBody (js "https://cdn.example/x.jpg")
            typedState.prompt))).filter Cmd.isNetwork
        = [Cmd.axiosPost (js "http://localhost:8000/api/generate-wallpaper")
            { prompt := js "Vibrant galaxy and stars in deep space",
              aspect_ratio := js "16:9" }] :=
  ⟨by decide,
   (generateWallpaper_single_request none typedState
      (Outcome.resolved (successBody (js "https://cdn.example/x.jpg") typedState.prompt))
      (by decide)).1⟩

/-- C6: for a prompt that does not trim to the empty string, when the awaited request throws,
the call emits exactly one notice, the error `Failed to generate wallpaper. Please try again.`,
leaves `generatedImage` and `lastPrompt` as they were and ends with `isGenerating` false. -/
theorem generateWallpaper_transport_failure (env : Option JSString) (s : State)
    (hp : trim s.prompt ≠ []) :
    (generateWallpaper env s Outcome.rejected).filter Cmd.isNotice
        = [Cmd.toastError (js "Failed to generate wallpaper. Please try again.")]
      ∧ (run s (generateWallpaper env s Outcome.rejected)).generatedImage = s.generatedImage
      ∧ (run s (generateWallpaper env s Outcome.rejected)).lastPrompt = s.lastPrompt
      ∧ (run s (generateWallpaper env s Outcome.rejected)).prompt = s.prompt
      ∧ (run s (generateWallpaper env s Outcome.rejected)).isGenerating = false := by
  rw [generateWallpaper_of_nonblank env s _ hp]
  simp [generateWallpaper_settle, Cmd.isNotice, run, State.exec]

theorem generateWallpaper_transport_failure_witness :
    trim shownState.prompt ≠ []
      ∧ (generateWallpaper none shownState Outcome.rejected).filter Cmd.isNotice
        = [Cmd.toastError (js "Failed to generate wallpaper. Please try again.")]
      ∧ (run shownState (generateWallpaper none shownState Outcome.rejected)).generatedImage
        = some (js "https://cdn.example/x.jpg")
      ∧ (run shownState (generateWallpaper none shownState Outcome.rejected)).lastPrompt
        = Value.str (js "Vibrant galaxy and stars in deep space")
      ∧ (run shownState (generateWallpaper none shownState Outcome.rejected)).isGenerating
        = false :=
  have h := generateWallpaper_transport_failure none shownState (by decide)
  ⟨by decide, h.1, h.2.1, h.2.2.1, h.2.2.2.2⟩

/-- C9: every entry of `samplePrompts` is offered as a badge in every state, and selecting it
sets the prompt to exactly that sample, whatever the prompt was, leaves `generatedImage`,
`isGenerating` and `lastPrompt` alone; selecting it a second time changes nothing more. -/
theorem selectSample_overwrites (s : State) (sample : JSString)
    (h : sample ∈ samplePrompts) :
    sample ∈ (render s).samples
      ∧ (run s (selectSample sample)).prompt = sample
      ∧ (run s (selectSample sample)).generatedImage = s.generatedImage
      ∧ (run s (selectSample sample)).isGenerating = s.isGenerating
      ∧ (run s (selectSample sample)).lastPrompt = s.lastPrompt
      ∧ run (run s (selectSample sample)) (selectSample sample)
        = run s (selectSample sample) := by
  refine ⟨h, ?_⟩
  simp [selectSample, run, State.exec]

theorem selectSample_overwrites_witness :
    js "Modern minimalist geometric abstract art" ∈ samplePrompts
      ∧ (run shownState (selectSample (js "Modern minimalist geometric abstract art"))).prompt
        = js "Modern minimalist geometric abstract art"
      ∧ (run shownState
          (selectSample (js "Modern minimalist geometric abstract art"))).lastPrompt
        = shownState.lastPrompt :=
  have h := selectSample_overwrites shownState
    (js "Modern minimalist geometric abstract art") (by decide)
  ⟨by decide, h.2.1, h.2.2.2.2.1⟩

/-- C10: in a state whose `generatedImage` is `null` or the empty string, `downloadImage`,
`copyImageUrl` and `shareToSocial` with any platform execute no command at all: no fetch, no
clipboard write, no window, no notice, no state change. -/
theorem result_actions_without_image (s : State) (h : truthyOpt s.generatedImage = false) :
    downloadImage_begin s = []
      ∧ (∀ ok now, downloadImage s ok now = [])
      ∧ copyImageUrl s = []
      ∧ (∀ platform, shareToSocial s platform = [])
      ∧ (∀ a, run s (onAction s a) = s) := by
  have hd : downloadImage_begin s = [] := by
    unfold downloadImage_begin
    cases hg : s.generatedImage with
    | none => rfl
    | some u => rw [hg] at h; simp [truthyOpt] at h; simp [h]
  have hc : copyImageUrl s = [] := by
    unfold copyImageUrl
    cases hg : s.generatedImage with
    | none => rfl
    | some u => rw [hg] at h; simp [truthyOpt] at h; simp [h]
  have hsh : ∀ platform, shareToSocial s platform = [] := by
    intro platform
    unfold shareToSocial
    cases hg : s.generatedImage with
    | none => rfl
    | some u => rw [hg] at h; simp [truthyOpt] at h; simp [h]
  refine ⟨hd, ?_, hc, hsh, ?_⟩
  · intro ok now
    simp [downloadImage, h, hd]
  · intro a
    cases a with
    | download => simp [onAction, hd, run]
    | copyUrl => simp [onAction, hc, run]
    | share platform => simp [onAction, hsh, run]

theorem result_actions_without_image_witness :
    truthyOpt typedState.generatedImage = false
      ∧ downloadImage_begin typedState = []
      ∧ downloadImage typedState true 1700000000000 = []
      ∧ copyImageUrl typedState = []
      ∧ shareToSocial typedState (js "twitter") = [] :=
  have h := result_actions_without_image typedState (by decide)
  ⟨by decide, h.1, h.2.1 true 1700000000000, h.2.2.1, h.2.2.2.1 (js "twitter")⟩

theorem surrogateState_reachable : Reachable none { ui := surrogateState, inFlight := 0 } :=
  Reachable.next _
    (Event.settle (Outcome.resolved (successBody (js "https://cdn.example/x.jpg") [55296])))
    (Reachable.next _ Event.generate
      (Reachable.next _ (Event.sample 3) Reachable.init (by decide)) (by decide))
    (by decide)

theorem nullPromptState_reachable : Reachable none { ui := nullPromptState, inFlight := 0 } :=
  Reachable.next _
    (Event.settle (Outcome.resolved
      { success := true, image_url := some (js "https://cdn.example/x.jpg"),
        prompt := Value.null, error := none }))
    (Reachable.next _ Event.generate
      (Reachable.next _ (Event.sample 3) Reachable.init (by decide)) (by decide))
    (by decide)

/-- C8, as stated, fails: in a state the component can reach, with the image on display,
`shareToSocial('twitter')` opens no link and emits no notice, because `lastPrompt` holds an
unpaired surrogate and `encodeURIComponent` throws on the share text. -/
theorem shareToSocial_unpaired_surrogate :
    (render surrogateState).preview = Preview.image (js "https://cdn.example/x.jpg")
      ∧ shareToSocial surrogateState (js "twitter") = [Cmd.throwURIError]
      ∧ (shareToSocial surrogateState (js "twitter")).countP Cmd.isOpen = 0
      ∧ (shareToSocial surrogateState (js "twitter")).countP Cmd.isNotice = 0 := by
  decide

/-- C8, amended: in every state, for a platform other than `twitter`, `facebook` and
`pinterest`, `shareToSocial(platform)` opens no link, emits no notice and changes no state.
With a non-empty image URL stored, and neither the image URL nor the printed `lastPrompt`
holding an unpaired surrogate, both `encodeURIComponent` calls return, and
`shareToSocial(platform)` executes exactly `window.open` on the platform's share URL built
from the two encoded strings, then the success toast, when `platform` is `twitter`, `facebook`
or `pinterest`.  No call of `shareToSocial` changes the state. -/
theorem shareToSocial_links (s : State) :
    (∀ img, s.generatedImage = some img → img ≠ [] → isWellFormed img = true →
        isWellFormed (interpolate s.lastPrompt) = true →
        ∃ shareUrl text,
          encodeURIComponent img = some shareUrl
            ∧ encodeURIComponent (shareText s.lastPrompt) = some text
            ∧ shareToSocial s (js "twitter")
              = [Cmd.windowOpen
                   (js "https://twitter.com/intent/tweet?text=" ++ text ++ js "&url="
                     ++ shareUrl)
                   (js "_blank") (js "noopener,noreferrer"),
                 Cmd.toastSuccess (js "Sharing to twitter!")]
            ∧ shareToSocial s (js "facebook")
              = [Cmd.windowOpen
                   (js "https://www.facebook.com/sharer/sharer.php?u=" ++ shareUrl
                     ++ js "&quote=" ++ text)
                   (js "_blank") (js "noopener,noreferrer"),
                 Cmd.toastSuccess (js "Sharing to facebook!")]
            ∧ shareToSocial s (js "pinterest")
              = [Cmd.windowOpen
                   (js "https://pinterest.com/pin/create/button/?url=" ++ shareUrl
                     ++ js "&description=" ++ text)
                   (js "_blank") (js "noopener,noreferrer"),
                 Cmd.toastSuccess (js "Sharing to pinterest!")])
      ∧ (∀ platform, platform ≠ js "twitter" → platform ≠ js "facebook" →
          platform ≠ js "pinterest" →
          (shareToSocial s platform).countP Cmd.isOpen = 0
            ∧ (shareToSocial s platform).countP Cmd.isNotice = 0
            ∧ run s (shareToSocial s platform) = s)
      ∧ (∀ platform, run s (shareToSocial s platform) = s) := by
  refine ⟨?_, ?_, fun platform => (onAction_pure s (Action.share platform)).1⟩
  · intro img hg hne hw1 hw2
    obtain ⟨shareUrl, h1⟩ := encodeURIComponent_of_wellFormed img hw1
    obtain ⟨text, h2⟩ := encodeURIComponent_of_wellFormed _ (shareText_wellFormed _ hw2)
    have ht : truthy img = true := (truthy_iff img).2 hne
    have hfb : js "facebook" ≠ js "twitter" := by decide
    have hpt : js "pinterest" ≠ js "twitter" := by decide
    have hpf : js "pinterest" ≠ js "facebook" := by decide
    have e1 : js "Sharing to " ++ js "twitter" ++ js "!" = js "Sharing to twitter!" := by
      decide
    have e2 : js "Sharing to " ++ js "facebook" ++ js "!" = js "Sharing to facebook!" := by
      decide
    have e3 : js "Sharing to " ++ js "pinterest" ++ js "!" = js "Sharing to pinterest!" := by
      decide
    refine ⟨shareUrl, text, h1, h2, ?_, ?_, ?_⟩
    · simp only [shareToSocial, hg, ht, h1, h2, shareLink, e1]
      simp
    · simp only [shareToSocial, hg, ht, h1, h2, shareLink, e2]
      simp [hfb]
    · simp only [shareToSocial, hg, ht, h1, h2, shareLink, e3]
      simp [hpt, hpf]
  · intro platform n1 n2 n3
    refine ⟨?_, ?_, (onAction_pure s (Action.share platform)).1⟩
    · simp only [shareToSocial]
      cases s.generatedImage with
      | none => simp
      | some u =>
        cases hu : truthy u
        · simp [hu]
        · cases h1 : encodeURIComponent u with
          | none => simp [Cmd.isOpen, hu, h1]
          | some shareUrl =>
            cases h2 : encodeURIComponent (shareText s.lastPrompt) with
            | none => simp [Cmd.isOpen, hu, h1, h2]
            | some text => simp [Cmd.isOpen, hu, h1, h2, shareLink, n1, n2, n3]
    · simp only [shareToSocial]
      cases s.generatedImage with
      | none => simp
      | some u =>
        cases hu : truthy u
        · simp [hu]
        · cases h1 : encodeURIComponent u with
          | none => simp [Cmd.isNotice, hu, h1]
          | some shareUrl =>
            cases h2 : encodeURIComponent (shareText s.lastPrompt) with
            | none => simp [Cmd.isNotice, hu, h1, h2]
            | some text => simp [Cmd.isNotice, hu, h1, h2, shareLink, n1, n2, n3]

theorem generatingSystem_reachable : Reachable none generatingSystem :=
  Reachable.next _ Event.generate
    (Reachable.next _ (Event.sample 3) Reachable.init (by decide)) (by decide)

/-- C5: for a prompt that does not trim to the empty string, `generateWallpaper` executes
`setIsGenerating(true)` and then the request, and whatever the way the request settles (a
success body, a failure body, an exception) the commands after the `await` end with
`setIsGenerating(false)` and leave the flag false; the Generate button is disabled in every
state where `isGenerating` is true; and in every state the component reaches by the settling
of a pending request the Generate button is enabled. -/
theorem inFlight_flag_discipline (env : Option JSString) :
    (∀ s : State, trim s.prompt ≠ [] →
        generateWallpaper_begin env s
          = [Cmd.setIsGenerating true,
             Cmd.axiosPost (API env ++ js "/generate-wallpaper")
               { prompt := trim s.prompt, aspect_ratio := js "16:9" }])
      ∧ (∀ (s : State) (o : Outcome),
          (generateWallpaper_settle o).getLast? = some (Cmd.setIsGenerating false)
            ∧ (run s (generateWallpaper_settle o)).isGenerating = false)
      ∧ (∀ (s : State) (o : Outcome), trim s.prompt ≠ [] →
          (run s (generateWallpaper env s o)).isGenerating = false)
      ∧ (∀ s : State, s.isGenerating = true → (render s).generateDisabled = true)
      ∧ (∀ (c : System) (o : Outcome), Reachable env c →
          permitted c (Event.settle o) = true →
          (render (step env c (Event.settle o)).ui).generateDisabled = false) := by
  refine ⟨fun s hs => generateWallpaper_begin_of_nonblank env s hs, ?_, ?_, ?_, ?_⟩
  · intro s o
    refine ⟨?_, (run_settle s o).1⟩
    cases o with
    | resolved d => cases hd : d.success <;> simp [generateWallpaper_settle, hd]
    | rejected => simp [generateWallpaper_settle]
  · intro s o hs
    rw [generateWallpaper_of_nonblank env s o hs]
    simp only [run, List.foldl_append]
    exact (run_settle _ o).1
  · intro s hs
    simp [render, hs]
  · intro c o hr hp
    have hinv := inv_of_reachable env c hr
    simp only [permitted, decide_eq_true_eq] at hp
    rcases hinv with ⟨h0, _⟩ | ⟨_, _, hne⟩
    · omega
    · have hrs := run_settle c.ui o
      simp [step, commands, render, hrs.1, hrs.2, truthy_trim_of_ne_nil _ hne]

theorem inFlight_flag_discipline_witness :
    generatingSystem.ui.isGenerating = true
      ∧ permitted generatingSystem (Event.settle Outcome.rejected) = true
      ∧ (render generatingSystem.ui).generateDisabled = true
      ∧ (render (step none generatingSystem (Event.settle Outcome.rejected)).ui).generateDisabled
        = false :=
  ⟨by decide, by decide,
   (inFlight_flag_discipline none).2.2.2.1 generatingSystem.ui (by decide),
   (inFlight_flag_discipline none).2.2.2.2 generatingSystem Outcome.rejected
     generatingSystem_reachable (by decide)⟩

/-- C7: in every state the component reaches from the initial one by permitted events
(typing, selecting a sample, clicking the enabled Generate button, a pending request settling,
clicking a result action), at most one generation request is in flight, one is in flight
exactly when `isGenerating` is true, and while it is true a click on Generate is not
permitted, so no second request can start. -/
theorem at_most_one_inFlight (env : Option JSString) (c : System) (h : Reachable env c) :
    c.inFlight ≤ 1
      ∧ (c.inFlight = 1 ↔ c.ui.isGenerating = true)
      ∧ (c.ui.isGenerating = true → permitted c Event.generate = false) := by
  have hinv := inv_of_reachable env c h
  rcases hinv with ⟨h0, h1⟩ | ⟨h0, h1, _⟩
  · refine ⟨by omega, ?_, ?_⟩
    · simp [h0, h1]
    · simp [h1]
  · refine ⟨by omega, ?_, ?_⟩
    · simp [h0, h1]
    · intro _
      simp [permitted, render, h1]

theorem at_most_one_inFlight_witness :
    Reachable none generatingSystem
      ∧ generatingSystem.inFlight = 1
      ∧ (generatingSystem.inFlight ≤ 1
        ∧ (generatingSystem.inFlight = 1 ↔ generatingSystem.ui.isGenerating = true)
        ∧ (generatingSystem.ui.isGenerating = true →
            permitted generatingSystem Event.generate = false)) :=
  ⟨generatingSystem_reachable, by decide,
   at_most_one_inFlight none generatingSystem generatingSystem_reachable⟩

theorem shareToSocial_links_witness :
    displayedState.generatedImage = some (js "https://cdn.example/x.jpg")
      ∧ isWellFormed (js "https://cdn.example/x.jpg") = true
      ∧ isWellFormed (interpolate displayedState.lastPrompt) = true
      ∧ shareToSocial displayedState (js "twitter")
        = [Cmd.windowOpen
             (js ("https://twitter.com/intent/tweet?text=Check%20out%20this%20amazing%20"
               ++ "wallpaper%20I%20just%20generated%3A%20%22sky%22"
               ++ "&url=https%3A%2F%2Fcdn.example%2Fx.jpg"))
             (js "_blank") (js "noopener,noreferrer"),
           Cmd.toastSuccess (js "Sharing to twitter!")]
      ∧ shareToSocial nullPromptState (js "twitter")
        = [Cmd.windowOpen
             (js ("https://twitter.com/intent/tweet?text=Check%20out%20this%20amazing%20"
               ++ "wallpaper%20I%20just%20generated%3A%20%22null%22"
               ++ "&url=https%3A%2F%2Fcdn.example%2Fx.jpg"))
             (js "_blank") (js "noopener,noreferrer"),
           Cmd.toastSuccess (js "Sharing to twitter!")]
      ∧ (shareToSocial surrogateState (js "mastodon")).countP Cmd.isOpen = 0
      ∧ (shareToSocial surrogateState (js "mastodon")).countP Cmd.isNotice = 0
      ∧ run surrogateState (shareToSocial surrogateState (js "mastodon")) = surrogateState := by
  obtain ⟨shareUrl, text, h1, h2, ht, _, _⟩ :=
    (shareToSocial_links displayedState).1 (js "https://cdn.example/x.jpg") rfl (by decide)
      (by decide) (by decide)
  obtain ⟨shareUrl0, text0, k1, k2, kt, _, _⟩ :=
    (shareToSocial_links nullPromptState).1 (js "https://cdn.example/x.jpg") rfl (by decide)
      (by decide) (by decide)
  have e1 : encodeURIComponent (js "https://cdn.example/x.jpg")
      = some (js "https%3A%2F%2Fcdn.example%2Fx.jpg") := by decide
  have e2 : encodeURIComponent (shareText displayedState.lastPrompt)
      = some (js "Check%20out%20this%20amazing%20wallpaper%20I%20just%20generated%3A%20%22sky%22")
      := by decide
  have e3 : encodeURIComponent (shareText nullPromptState.lastPrompt)
      = some (js "Check%20out%20this%20amazing%20wallpaper%20I%20just%20generated%3A%20%22null%22")
      := by decide
  rw [e1] at h1 k1
  rw [e2] at h2
  rw [e3] at k2
  cases h1
  cases h2
  cases k1
  cases k2
  refine ⟨rfl, by decide, by decide, ?_, ?_,
    (shareToSocial_links surrogateState).2.1 (js "mastodon") (by decide) (by decide)
      (by decide)⟩
  · rw [ht]
    decide
  · rw [kt]
    decide

end WallpaperGenerator
